import Mathlib

/-!
Verification of the WordSurf procedural platform generator and the
curve-aware traversal/scoring engine, against its natural-language spec.

The embedding mirrors the JavaScript sources:
* `Utils.generateCurve` (src/js/utils.js)           → `generateCurve` over ℝ
* `GeometryGenerator.createCurvedPlatform` binding of the mesh's
  `userData.curveFunction` (src/js/geometry-generator.js, lines 79-139)
  → `createCurvedPlatformMesh`
* `GeometryGenerator.getPlatformYAtX`               → `getPlatformYAtX`
* `GeometryGenerator.createLevel`                   → `createLevel` over ℚ
* Player module (`resetState`, `processInput`, `checkPlatformCollisions`,
  `onPlatformChange`, `checkWordSurfing`, `awardPerfectSurf`) → the
  `PState` step functions over ℚ (exact arithmetic stands in for JS floats;
  every layout / scoring quantity in the source is float-exact)
* the geometry cache keyed by `platform-${length}-${width}-${curviness.toFixed(1)}`
  → `createCurvedPlatform` over an association-list cache

Constants are taken from CONFIG (src config file): maxCurviness 10,
platformWidth 2, minPlatformHeight 0.5, scorePerWord 10, bonusMultiplier 2,
minSentenceLength 3, defaultCurviness 5, playerSpeed 5, jumpForce 8, gravity 0.5.
-/

namespace WordSurf

/-- CONFIG.game.maxCurviness = 10. -/
def maxCurviness : ℝ := 10

/-- Embedding of `Utils.generateCurve(x, length, curviness)` (utils.js lines
135-164): normalizedCurviness = curviness/10, amplitude = normalized*5,
frequency = 1 + normalized*2, sineWave = amplitude*sin(2π*frequency*x/length),
angle = -35*(π/180), rotatedY = sineWave*cos(angle) - x*sin(angle),
globalDownwardSlope = -0.5*(x/length); returns rotatedY + globalDownwardSlope. -/
noncomputable def generateCurve (x length curviness : ℝ) : ℝ :=
  let normalizedCurviness := curviness / maxCurviness
  let amplitude := normalizedCurviness * 5
  let frequency := 1 + normalizedCurviness * 2
  let sineWave := amplitude * Real.sin ((2 * Real.pi * frequency * x) / length)
  let angle := -35 * (Real.pi / 180)
  let rotatedY := sineWave * Real.cos angle - x * Real.sin angle
  let globalDownwardSlope := -0.5 * (x / length)
  rotatedY + globalDownwardSlope

/-- Reference formula written from the spec's words (section 4.1 / claim C2):
with n = curviness/10, amplitude = 5·n, frequency = 1 + 2·n,
waveform = amplitude·sin(2π·frequency·x/length), θ = -35·(π/180),
the result is waveform·cos θ - x·sin θ + (-0.5·(x/length)). -/
noncomputable def specCurveFormula (x length curviness : ℝ) : ℝ :=
  let n := curviness / 10
  let amplitude := 5 * n
  let frequency := 1 + 2 * n
  let waveform := amplitude * Real.sin (2 * Real.pi * frequency * x / length)
  let θ := -35 * (Real.pi / 180)
  waveform * Real.cos θ - x * Real.sin θ + (-0.5 * (x / length))

/-- Model of a THREE mesh as far as the collision layer reads it: the
`userData.curveFunction` slot, absent until the generator binds it
(`getPlatformYAtX` falls back to 0 when it is absent). -/
structure PMesh (α : Type) where
  curveFunction : Option (α → α)

/-- Model of a platform container object: `children[0]` is the platform mesh;
`userData` carries `length` and `words`; `position` is set by `createLevel`. -/
structure PlatformObj (α : Type) where
  id : ℕ
  posX : α
  posY : α
  len : α
  words : List String
  mesh : PMesh α

/-- Embedding of `GeometryGenerator.getPlatformYAtX(platform, x)`
(geometry-generator.js lines 323-334): use the curve function stored in the
first child's userData, falling back to 0 when it is missing. -/
def getPlatformYAtX {α : Type} [OfNat α 0] (platform : PlatformObj α) (x : α) : α :=
  match platform.mesh.curveFunction with
  | some f => f x
  | none => 0

/-- Embedding of the mesh construction inside
`GeometryGenerator.createCurvedPlatform(length, width, curviness)`
(geometry-generator.js lines 79-139, the cache-miss path): the mesh's
`userData.curveFunction` is bound to
`x ↦ Utils.generateCurve(x + length/2, length, curviness)` (lines 130-134).
`width` only affects the extruded material, not the curve binding. -/
noncomputable def createCurvedPlatformMesh (length _width curviness : ℝ) : PMesh ℝ :=
  { curveFunction := some fun x => generateCurve (x + length / 2) length curviness }

/-- Segment count used when sampling the platform path
(geometry-generator.js line 83): `Math.max(10, Math.floor(length * 2))`. -/
noncomputable def platformSegments (length : ℝ) : ℤ := max 10 ⌊length * 2⌋

/-- Sample abscissa of the platform path (geometry-generator.js line 88):
`x = (i / segments) * length`. -/
noncomputable def samplePointX (length : ℝ) (i : ℤ) : ℝ :=
  ((i : ℝ) / (platformSegments length : ℝ)) * length

/-- Sample ordinate of the platform path (geometry-generator.js line 89):
`y = Utils.generateCurve(x, length, curviness)`. -/
noncomputable def samplePointY (length curviness : ℝ) (i : ℤ) : ℝ :=
  generateCurve (samplePointX length i) length curviness

/-! ## Sentences, word counting, and the level assembler -/

/-- Embedding of `Utils.countWords(text)` (utils.js lines 118-126):
`if (!text) return 0; return text.trim().split(/\s+/).length`.
A JS split of a trimmed nonempty string on runs of whitespace yields the
nonempty whitespace-free chunks; a whitespace-only string trims to `""`,
whose split yields `[""]` of length 1. -/
def countWords (text : String) : ℕ :=
  if text = "" then 0
  else if text.trim = "" then 1
  else ((text.trim.split fun c => c.isWhitespace).filter fun w => w ≠ "").length

/-- JS `s.split(/\s+/)` as used for `platform.userData.words`
(geometry-generator.js line 59), applied to the raw sentence text: runs of
whitespace separate chunks, a leading (resp. trailing) whitespace run
contributes a leading (resp. trailing) empty chunk, and the empty string
yields `[""]`. -/
def jsSplitWs (s : String) : List String :=
  if s = "" then [""]
  else
    let core := (s.split fun c => c.isWhitespace).filter fun w => w ≠ ""
    let withLead := if s.front.isWhitespace then "" :: core else core
    if s.back.isWhitespace then withLead ++ [""] else withLead

/-- Upstream sentence payload as consumed by `createPlatform` / `createLevel`:
`text`, the optional `length` word-count hint (JS falsy when 0), and the
optional tone-analysis `curviness`. -/
structure Sentence where
  text : String
  lengthField : Option ℕ
  curviness : Option ℚ

/-- Embedding of `sentence.length || Utils.countWords(sentence.text)`
(geometry-generator.js line 30): the `length` field is used unless it is
absent or 0 (JS falsy), in which case the whitespace word count is used. -/
def wordCountOf (s : Sentence) : ℕ :=
  match s.lengthField with
  | some n => if n = 0 then countWords s.text else n
  | none => countWords s.text

/-- Platform length (geometry-generator.js line 31): `wordCount * 2`. -/
def platformLengthOf (s : Sentence) : ℚ := (wordCountOf s : ℚ) * 2

/-- CONFIG.content.minSentenceLength = 3. -/
def minSentenceLength : ℕ := 3

/-- CONFIG.content.defaultCurviness = 5. -/
def defaultCurviness : ℚ := 5

/-- Fixed gap between consecutive platform edges (geometry-generator.js
line 299): 2 units. -/
def gapBetweenPlatforms : ℚ := 2

/-- Per-platform level descent (geometry-generator.js line 268): 5 units. -/
def levelDownwardStep : ℚ := 5

/-- Platform record as positioned by the level assembler: the `userData`
fields of `createPlatform` (length, curviness, words, backing sentence) plus
the world position assigned by `createLevel`. -/
structure LevelPlat where
  sentence : Sentence
  len : ℚ
  curviness : ℚ
  words : List String
  posX : ℚ
  posY : ℚ

/-- Embedding of the `sentences.forEach` loop of
`GeometryGenerator.createLevel` (geometry-generator.js lines 258-306),
threading `nextStartX` and `currentY`; returns the built platforms and the
final `nextStartX` (recorded as `totalLength`). Sentences with fewer than
`minSentenceLength` whitespace words are skipped without touching either
accumulator. -/
def buildLevelAux : List Sentence → ℚ → ℚ → List LevelPlat × ℚ
  | [], nextStartX, _currentY => ([], nextStartX)
  | s :: rest, nextStartX, currentY =>
    if countWords s.text < minSentenceLength then
      buildLevelAux rest nextStartX currentY
    else
      let platformLength := platformLengthOf s
      let platformCenterX := nextStartX + platformLength / 2
      let p : LevelPlat :=
        { sentence := s, len := platformLength
          curviness := s.curviness.getD defaultCurviness
          words := jsSplitWs s.text
          posX := platformCenterX, posY := currentY }
      let result := buildLevelAux rest (platformCenterX + platformLength / 2 + gapBetweenPlatforms)
          (currentY - levelDownwardStep)
      (p :: result.1, result.2)

/-- Level metadata (geometry-generator.js lines 309-312): the platform list,
`userData.totalLength` (final `nextStartX`) and `userData.sentenceCount`
(the raw input list length). -/
structure Level where
  platforms : List LevelPlat
  totalLength : ℚ
  sentenceCount : ℕ

/-- Embedding of `GeometryGenerator.createLevel(sentences)`. -/
def createLevel (sentences : List Sentence) : Level :=
  let result := buildLevelAux sentences 0 0
  { platforms := result.1, totalLength := result.2, sentenceCount := sentences.length }

/-! ## Player state and the traversal/collision/scoring engine -/

/-- CONFIG.game.scorePerWord = 10. -/
def scorePerWord : ℤ := 10

/-- CONFIG.game.bonusMultiplier = 2. -/
def bonusMultiplier : ℤ := 2

/-- Approximate player radius (player module, collision code): 0.5. -/
def playerRadius : ℚ := 1/2

/-- CONFIG.game.playerSpeed = 5. -/
def playerSpeed : ℚ := 5

/-- CONFIG.game.jumpForce = 8. -/
def jumpForce : ℚ := 8

/-- Boolean intent vector read once per tick (player module `this.input`). -/
structure InputState where
  left : Bool
  right : Bool
  jump : Bool

/-- Player state as set by `Player.resetState` (player module): position,
velocity, jumping/grounded flags, current platform reference, current word
index, score, perfect-surf count. -/
structure PState where
  px : ℚ
  py : ℚ
  pz : ℚ
  vx : ℚ
  vy : ℚ
  vz : ℚ
  isJumping : Bool
  isGrounded : Bool
  currentPlatform : Option (PlatformObj ℚ)
  currentWordIndex : ℤ
  score : ℤ
  perfectSurfs : ℕ

/-- Embedding of `Player.resetState`: everything zeroed, airborne, no
platform. -/
def initialPState : PState :=
  { px := 0, py := 0, pz := 0, vx := 0, vy := 0, vz := 0
    isJumping := false, isGrounded := false, currentPlatform := none
    currentWordIndex := 0, score := 0, perfectSurfs := 0 }

/-- Embedding of `Player.processInput` (player module lines 772-789):
horizontal acceleration clamped to ±playerSpeed (or 0.9 damping), then a jump
(only while grounded and not already jumping) sets vertical velocity to
`jumpForce`, marks jumping and clears grounded. -/
def processInput (input : InputState) (st : PState) : PState :=
  let st1 :=
    if input.left then { st with vx := max (st.vx - 1/2) (-playerSpeed) }
    else if input.right then { st with vx := min (st.vx + 1/2) playerSpeed }
    else { st with vx := st.vx * (9/10) }
  if input.jump ∧ st1.isGrounded ∧ ¬st1.isJumping then
    { st1 with vy := jumpForce, isJumping := true, isGrounded := false }
  else st1

/-- Embedding of `Player.onPlatformChange` (player module lines 903-913):
reset the word index to 0 (the narration side effect is external). -/
def onPlatformChange (_newPlatform : PlatformObj ℚ) (st : PState) : PState :=
  { st with currentWordIndex := 0 }

/-- One iteration of the `level.children.forEach` platform-selection loop in
`Player.checkPlatformCollisions` (player module lines 832-853): skip
platforms without a (nonzero) `userData.length`; if the player is
horizontally within the platform bounds, evaluate the platform's bound
height at the player's relative X and keep the platform whose absolute
height is highest while still at or below `playerY + playerRadius`. -/
def selectStep (playerX playerY : ℚ) (acc : Option (PlatformObj ℚ × ℚ))
    (platform : PlatformObj ℚ) : Option (PlatformObj ℚ × ℚ) :=
  if platform.len = 0 then acc
  else
    if platform.posX - platform.len / 2 ≤ playerX ∧ playerX ≤ platform.posX + platform.len / 2 then
      let absolutePlatformY := platform.posY + getPlatformYAtX platform (playerX - platform.posX)
      match acc with
      | none =>
        if absolutePlatformY ≤ playerY + playerRadius then some (platform, absolutePlatformY)
        else acc
      | some best =>
        if best.2 < absolutePlatformY ∧ absolutePlatformY ≤ playerY + playerRadius then
          some (platform, absolutePlatformY)
        else acc
    else acc

/-- The whole selection loop, starting from `currentPlatform = null`,
`platformY = -Infinity`. -/
def selectPlatform (plats : List (PlatformObj ℚ)) (playerX playerY : ℚ) :
    Option (PlatformObj ℚ × ℚ) :=
  plats.foldl (selectStep playerX playerY) none

/-- Embedding of `Player.checkPlatformCollisions` (player module lines
811-879): while falling the grounded flag is cleared; if a platform was
selected and the player is falling and within `playerRadius` of its surface,
snap onto it (position, zero vertical velocity, grounded, not jumping),
firing `onPlatformChange` when the platform differs from the previous one;
if no platform was selected and the player is (still) grounded, clear the
grounded flag and the platform reference. -/
def checkPlatformCollisions (plats : List (PlatformObj ℚ)) (st : PState) : PState :=
  let st1 := if st.vy < 0 then { st with isGrounded := false } else st
  match selectPlatform plats st.px st.py with
  | some found =>
    if st.vy < 0 then
      if st.py - found.2 ≤ playerRadius then
        let landed :=
          { st1 with
            py := found.2 + playerRadius
            vy := 0
            isGrounded := true
            isJumping := false }
        let changed :=
          if st1.currentPlatform.map (fun p => p.id) ≠ some found.1.id then
            onPlatformChange found.1 landed
          else landed
        { changed with currentPlatform := some found.1 }
      else st1
    else st1
  | none =>
    if st1.isGrounded then { st1 with isGrounded := false, currentPlatform := none } else st1

/-- Relative position along a platform (player module line 931):
`(playerX - platformLeft) / platformLength`. -/
def relativePosAt (platform : PlatformObj ℚ) (playerX : ℚ) : ℚ :=
  (playerX - (platform.posX - platform.len / 2)) / platform.len

/-- Word index under the player (player module lines 934-937):
`min(floor(relativePos * words.length), words.length - 1)`. -/
def wordIndexAt (platform : PlatformObj ℚ) (playerX : ℚ) : ℤ :=
  min ⌊relativePosAt platform playerX * (platform.words.length : ℚ)⌋
    ((platform.words.length : ℤ) - 1)

/-- Embedding of `Player.checkWordSurfing` (player module lines 918-963):
no-op without a current platform; otherwise award `scorePerWord` and advance
`currentWordIndex` whenever the word index strictly exceeds it, then, when
the word index equals `words.length - 1` and the relative position is at
least 0.95 and the (updated) index equals `words.length - 1`, award the
perfect-surf bonus (`awardPerfectSurf`, lines 968-979) and set the index to
the sentinel `words.length`. -/
def checkWordSurfing (st : PState) : PState :=
  match st.currentPlatform with
  | none => st
  | some platform =>
    let wordIndex := wordIndexAt platform st.px
    let relativePos := relativePosAt platform st.px
    let st1 :=
      if st.currentWordIndex < wordIndex then
        { st with score := st.score + scorePerWord, currentWordIndex := wordIndex }
      else st
    if wordIndex = (platform.words.length : ℤ) - 1 ∧ 95/100 ≤ relativePos then
      if st1.currentWordIndex = (platform.words.length : ℤ) - 1 then
        { st1 with score := st1.score + scorePerWord * bonusMultiplier
                   perfectSurfs := st1.perfectSurfs + 1
                   currentWordIndex := (platform.words.length : ℤ) }
      else st1
    else st1

/-- One scoring tick at player abscissa `x`: the physics step has moved the
player, then `checkWordSurfing` runs (player module `update`, lines
751-766). -/
def surfStep (x : ℚ) (st : PState) : PState := checkWordSurfing { st with px := x }

/-- A run of scoring ticks along a player-X trajectory, the current platform
held fixed (the player stays on one and the same platform). -/
def surfRun (xs : List ℚ) (st : PState) : PState := xs.foldl (fun s x => surfStep x s) st

/-- The word indices at which the per-word award fires along a trajectory
(the ticks entering the `wordIndex > currentWordIndex` branch). -/
def awardedIndices : List ℚ → PState → List ℤ
  | [], _ => []
  | x :: rest, st =>
    (match st.currentPlatform with
      | some platform =>
        if st.currentWordIndex < wordIndexAt platform x then [wordIndexAt platform x] else []
      | none => []) ++ awardedIndices rest (surfStep x st)

/-- One full movement-collision-scoring tick with the post-physics position
and vertical velocity supplied: `checkPlatformCollisions` then
`checkWordSurfing`, as in `Player.update`. -/
def collideAndSurf (plats : List (PlatformObj ℚ)) (x y v : ℚ) (st : PState) : PState :=
  checkWordSurfing (checkPlatformCollisions plats { st with px := x, py := y, vy := v })

/-- Demo platform occupying local span [0, 6] with three words and a flat
bound height function, as placed first by the level assembler. -/
def platA : PlatformObj ℚ :=
  { id := 0, posX := 3, posY := 0, len := 6
    words := ["each", "word", "counts"]
    mesh := { curveFunction := some fun _ => 0 } }

/-- Demo platform occupying local span [8, 14], one level step (5 units)
below `platA`. -/
def platB : PlatformObj ℚ :=
  { id := 1, posX := 11, posY := -5, len := 6
    words := ["three", "more", "words"]
    mesh := { curveFunction := some fun _ => 0 } }

/-- Player falling just above the right end of `platA`. -/
def stFall : PState := { initialPState with px := 3, py := 3/10, vy := -1 }

/-- Player rising at the same spot. -/
def stRise : PState := { initialPState with px := 3, py := 3/10, vy := 1 }

/-- Player airborne over the middle of `platA` with the platform still
current. -/
def stAir : PState := { initialPState with currentPlatform := some platA, px := 3 }

/-- Player grounded on `platA`, not yet jumping. -/
def stGround : PState := { initialPState with currentPlatform := some platA, isGrounded := true }

/-- Player moving upward with `platA` current. -/
def stAirUp : PState := { initialPState with currentPlatform := some platA, vy := 1 }

/-- Jump-only input vector. -/
def jumpInput : InputState := { left := false, right := false, jump := true }

/-- Two-platform demo level for the traversal engine. -/
def demoLevel : List (PlatformObj ℚ) := [platA, platB]

/-- Tick 1: fall onto the right end of `platA` (relative position 59/60). -/
def tick1 : PState := collideAndSurf demoLevel (59/10) (3/10) (-1) initialPState

/-- Tick 2: fall onto `platB` (a different platform, resetting the word
index). -/
def tick2 : PState := collideAndSurf demoLevel 10 (-9/2) (-1) tick1

/-- Tick 3: land back on the right end of `platA`. -/
def tick3 : PState := collideAndSurf demoLevel (59/10) (3/10) (-1) tick2

/-- Player with `platA` current, as after landing on it at its left end. -/
def stOnA : PState := { initialPState with currentPlatform := some platA }

/-! ## The geometry cache -/

/-- JS `curviness.toFixed(1)` read back as the rational it denotes: the
value rounded to one decimal place (`round` is floor of `x + 1/2`, matching
`toFixed` away from representation-edge halves, which do not occur here). -/
def toFixed1 (c : ℚ) : ℚ := ((round (c * 10) : ℤ) : ℚ) / 10

/-- A cached platform mesh, fully determined by its build parameters: the
geometry and the bound height function of `createCurvedPlatform` are
functions of `(length, width, curviness)` alone, so a (deep) clone is
identified with the record of those parameters. -/
structure CachedMesh where
  length : ℚ
  width : ℚ
  curviness : ℚ
deriving DecidableEq

/-- The height function bound to a cached mesh (geometry-generator.js lines
130-134), determined by its build parameters. -/
noncomputable def meshCurveFunction (m : CachedMesh) : ℝ → ℝ :=
  fun x => generateCurve (x + (m.length : ℝ) / 2) (m.length : ℝ) (m.curviness : ℝ)

/-- Cache key `platform-${length}-${width}-${curviness.toFixed(1)}`
(geometry-generator.js line 74), modeled as the triple it prints (JS
number-to-string printing is injective). -/
def cacheKeyOf (length width curviness : ℚ) : ℚ × ℚ × ℚ :=
  (length, width, toFixed1 curviness)

/-- The geometry cache `GeometryGenerator.geometryCache` as an association
list. -/
abbrev GeometryCache : Type := List ((ℚ × ℚ × ℚ) × CachedMesh)

/-- Embedding of `GeometryGenerator.createCurvedPlatform` including its
cache check (geometry-generator.js lines 72-77 and 136-139): on a cache hit
return a clone of the cached mesh (an independent but identical copy); on a
miss build the mesh from the call's own parameters, store a clone, and
return the mesh. -/
def createCurvedPlatform (cache : GeometryCache) (length width curviness : ℚ) :
    CachedMesh × GeometryCache :=
  let cacheKey := cacheKeyOf length width curviness
  match cache.find? (fun e => e.1 = cacheKey) with
  | some e => (e.2, cache)
  | none =>
    let mesh : CachedMesh := { length := length, width := width, curviness := curviness }
    (mesh, (cacheKey, mesh) :: cache)

/-! ## Theorems -/

/-- Claim C1: for every platform mesh built by `createCurvedPlatform(length,
width, curviness)` and every local `x`, the bound height-query function
(`userData.curveFunction`, as exposed through `getPlatformYAtX`) returns
exactly `generateCurve(x + length/2, length, curviness)`; moreover every
sampled geometry vertex `(xᵢ, yᵢ)` of the surface lies exactly on that same
function evaluated at the mesh-local abscissa `xᵢ - length/2`, so the
geometry construction and the collision query evaluate the identical curve
with the identical parameterization. -/
theorem getPlatformYAtX_eq_curve (length width curviness x px py : ℝ)
    (n : ℕ) (ws : List String) (l : ℝ) :
    getPlatformYAtX
        { id := n, posX := px, posY := py, len := l, words := ws
          mesh := createCurvedPlatformMesh length width curviness } x
      = generateCurve (x + length / 2) length curviness ∧
    ∀ i : ℤ, samplePointY length curviness i
      = getPlatformYAtX
          { id := n, posX := px, posY := py, len := l, words := ws
            mesh := createCurvedPlatformMesh length width curviness }
          (samplePointX length i - length / 2) := by
  constructor
  · rfl
  · intro i
    show generateCurve (samplePointX length i) length curviness
      = generateCurve (samplePointX length i - length / 2 + length / 2) length curviness
    rw [sub_add_cancel]

/-- Claim C2: `generateCurve` agrees with the spec's reference formula (for
all real inputs, in particular for every `x ∈ [0, length]`, `length > 0`,
`curviness ∈ [0, 10]`). -/
theorem generateCurve_eq_specCurveFormula (x length curviness : ℝ) :
    generateCurve x length curviness = specCurveFormula x length curviness := by
  unfold generateCurve specCurveFormula maxCurviness
  ring_nf

/-- Claim C3 (code bug witness): at curviness 0 the curve is NOT a descending
line. The function's own comments state the rotation formula
`y' = x*sin(angle) + y*cos(angle)` and promise "a downward trend", but the
implementation computes `y*cos(angle) - x*sin(angle)`, which at curviness 0
and length 6 rises from `generateCurve 0 6 0 = 0` to
`generateCurve 6 6 0 = 6*sin(35π/180) - 1/2 > 0`. -/
theorem generateCurve_zero_curviness_ascends :
    generateCurve 0 6 0 = 0 ∧ generateCurve 0 6 0 < generateCurve 6 6 0 := by
  have hpi := Real.pi_pos
  have key : Real.sin (35 * (Real.pi / 180)) ≥ 7 / 18 := by
    have h1 : (0 : ℝ) ≤ 35 * (Real.pi / 180) := by positivity
    have h2 : 35 * (Real.pi / 180) ≤ Real.pi / 2 := by nlinarith
    have h3 := Real.mul_le_sin h1 h2
    have h4 : 2 / Real.pi * (35 * (Real.pi / 180)) = 7 / 18 := by
      field_simp
      ring
    linarith [h4 ▸ h3]
  constructor
  · unfold generateCurve maxCurviness
    simp
  · unfold generateCurve maxCurviness
    have hs : Real.sin (-35 * (Real.pi / 180)) = -Real.sin (35 * (Real.pi / 180)) := by
      rw [show (-35 : ℝ) * (Real.pi / 180) = -(35 * (Real.pi / 180)) by ring, Real.sin_neg]
    simp only [hs]
    have hsin0 : Real.sin ((2 * Real.pi * (1 + 0 / 10 * 2) * 0) / 6) = 0 := by
      norm_num
    have hsin6 : Real.sin ((2 * Real.pi * (1 + 0 / 10 * 2) * 6) / 6) = 0 := by
      have : (2 * Real.pi * (1 + 0 / 10 * 2) * 6) / 6 = 2 * Real.pi := by ring
      rw [this, Real.sin_two_pi]
    norm_num [hsin0, hsin6]
    nlinarith [key]

theorem buildLevelAux_head (sentences : List Sentence) :
    ∀ sx cy p, ((buildLevelAux sentences sx cy).1.head? = some p) →
      p.posX - p.len / 2 = sx ∧ p.posY = cy := by
  induction sentences with
  | nil => intro sx cy p h; simp [buildLevelAux] at h
  | cons s rest ih =>
    intro sx cy p h
    rw [buildLevelAux] at h
    split at h
    · exact ih sx cy p h
    · simp only [List.head?_cons, Option.some.injEq] at h
      subst h
      constructor
      · ring
      · rfl

theorem buildLevelAux_chain (sentences : List Sentence) (sx cy : ℚ) :
    List.Chain'
      (fun p q =>
        q.posX - q.len / 2 = p.posX + p.len / 2 + gapBetweenPlatforms ∧
        q.posY = p.posY - levelDownwardStep ∧
        p.posX + p.len / 2 < q.posX - q.len / 2)
      (buildLevelAux sentences sx cy).1 := by
  induction sentences generalizing sx cy with
  | nil => simp [buildLevelAux]
  | cons s rest ih =>
    rw [buildLevelAux]
    split
    · exact ih sx cy
    · rw [List.chain'_cons']
      refine ⟨?_, ih _ _⟩
      intro q hq
      obtain ⟨h1, h2⟩ := buildLevelAux_head rest _ _ q hq
      refine ⟨?_, ?_, ?_⟩
      · rw [h1]
      · rw [h2]
      · rw [h1]
        have : (0 : ℚ) < gapBetweenPlatforms := by norm_num [gapBetweenPlatforms]
        linarith

/-- Claim C4: for every input sentence list, consecutive built platforms
satisfy `next.posX - next.len/2 = prev.posX + prev.len/2 + 2` (the fixed
2-unit gap, so their horizontal spans never overlap) and
`next.posY = prev.posY - 5` (the fixed downward step, independent of
curviness). -/
theorem createLevel_consecutive_layout (sentences : List Sentence) :
    List.Chain'
      (fun p q =>
        q.posX - q.len / 2 = p.posX + p.len / 2 + 2 ∧
        q.posY = p.posY - 5 ∧
        p.posX + p.len / 2 < q.posX - q.len / 2)
      (createLevel sentences).platforms :=
  buildLevelAux_chain sentences 0 0

theorem buildLevelAux_filter_eq (sentences : List Sentence) :
    ∀ sx cy, buildLevelAux sentences sx cy
      = buildLevelAux (sentences.filter fun s => minSentenceLength ≤ countWords s.text) sx cy := by
  induction sentences with
  | nil => intro sx cy; rfl
  | cons s rest ih =>
    intro sx cy
    by_cases h : countWords s.text < minSentenceLength
    · rw [buildLevelAux, if_pos h, List.filter_cons_of_neg (by simpa using h)]
      exact ih sx cy
    · rw [buildLevelAux, if_neg h, List.filter_cons_of_pos (by simpa using Nat.le_of_not_lt h)]
      rw [buildLevelAux, if_neg h]
      simp only [ih]

theorem buildLevelAux_length (sentences : List Sentence) :
    ∀ sx cy, (buildLevelAux sentences sx cy).1.length
      = (sentences.filter fun s => minSentenceLength ≤ countWords s.text).length := by
  induction sentences with
  | nil => intro sx cy; rfl
  | cons s rest ih =>
    intro sx cy
    by_cases h : countWords s.text < minSentenceLength
    · rw [buildLevelAux, if_pos h, List.filter_cons_of_neg (by simpa using h)]
      exact ih sx cy
    · rw [buildLevelAux, if_neg h, List.filter_cons_of_pos (by simpa using Nat.le_of_not_lt h)]
      simp only [List.length_cons, ih]

theorem length_filter_split (sentences : List Sentence) :
    sentences.length
      = (sentences.filter fun s => minSentenceLength ≤ countWords s.text).length
        + (sentences.filter fun s => countWords s.text < minSentenceLength).length := by
  induction sentences with
  | nil => rfl
  | cons s rest ih =>
    by_cases h : countWords s.text < minSentenceLength
    · rw [List.filter_cons_of_neg (by simpa using h), List.filter_cons_of_pos (by simpa using h)]
      simp only [List.length_cons]
      omega
    · rw [List.filter_cons_of_pos (by simpa using Nat.le_of_not_lt h),
        List.filter_cons_of_neg (by simpa using h)]
      simp only [List.length_cons]
      omega

/-- Claim C8: `createLevel` builds exactly one platform per sentence with at
least `minSentenceLength` (3) whitespace words and none for any sentence
below it; dropped sentences do not advance the running X or Y layout slot
(the build is identical to building from the filtered list); and
`level.userData.sentenceCount` records the full input length, so
`sentenceCount` minus the number of built platforms equals the number of
dropped sentences. -/
theorem createLevel_drops_short_sentences (sentences : List Sentence) :
    buildLevelAux sentences 0 0
      = buildLevelAux (sentences.filter fun s => minSentenceLength ≤ countWords s.text) 0 0 ∧
    (createLevel sentences).platforms.length
      = (sentences.filter fun s => minSentenceLength ≤ countWords s.text).length ∧
    (createLevel sentences).sentenceCount = sentences.length ∧
    (createLevel sentences).sentenceCount
      = (createLevel sentences).platforms.length
        + (sentences.filter fun s => countWords s.text < minSentenceLength).length := by
  refine ⟨buildLevelAux_filter_eq sentences 0 0, buildLevelAux_length sentences 0 0, rfl, ?_⟩
  have h1 : (createLevel sentences).sentenceCount = sentences.length := rfl
  rw [h1, length_filter_split sentences]
  have h2 := buildLevelAux_length sentences 0 0
  have h3 : (createLevel sentences).platforms.length = (buildLevelAux sentences 0 0).1.length := rfl
  omega

theorem checkWordSurfing_index_mono (st : PState) :
    st.currentWordIndex ≤ (checkWordSurfing st).currentWordIndex := by
  unfold checkWordSurfing
  cases hp : st.currentPlatform with
  | none => exact le_refl _
  | some platform =>
    have hmin : wordIndexAt platform st.px ≤ (platform.words.length : ℤ) - 1 :=
      min_le_right _ _
    simp only []
    split_ifs <;> simp_all <;> omega

theorem surfStep_index_mono (x : ℚ) (st : PState) :
    st.currentWordIndex ≤ (surfStep x st).currentWordIndex :=
  checkWordSurfing_index_mono { st with px := x }

theorem surfRun_index_mono (xs : List ℚ) :
    ∀ st : PState, st.currentWordIndex ≤ (surfRun xs st).currentWordIndex := by
  induction xs with
  | nil => intro st; exact le_refl _
  | cons x rest ih =>
    intro st
    exact le_trans (surfStep_index_mono x st) (ih (surfStep x st))

theorem checkWordSurfing_award_pushes (st : PState) (platform : PlatformObj ℚ)
    (hp : st.currentPlatform = some platform)
    (h : st.currentWordIndex < wordIndexAt platform st.px) :
    wordIndexAt platform st.px ≤ (checkWordSurfing st).currentWordIndex := by
  unfold checkWordSurfing
  rw [hp]
  have hmin : wordIndexAt platform st.px ≤ (platform.words.length : ℤ) - 1 :=
    min_le_right _ _
  simp only []
  split_ifs <;> simp_all

theorem awardedIndices_gt (xs : List ℚ) :
    ∀ (st : PState) (i : ℤ), i ∈ awardedIndices xs st → st.currentWordIndex < i := by
  induction xs with
  | nil => intro st i hi; simp [awardedIndices] at hi
  | cons x rest ih =>
    intro st i hi
    rw [awardedIndices] at hi
    rcases List.mem_append.1 hi with h | h
    · cases hp : st.currentPlatform with
      | none => rw [hp] at h; simp at h
      | some platform =>
        rw [hp] at h
        by_cases hc : st.currentWordIndex < wordIndexAt platform x
        · simp only [hc, if_true, List.mem_singleton] at h
          rw [h]
          exact hc
        · simp [hc] at h
    · exact lt_of_le_of_lt (surfStep_index_mono x st) (ih (surfStep x st) i h)

theorem awardedIndices_pairwise (xs : List ℚ) :
    ∀ st : PState, List.Pairwise (· < ·) (awardedIndices xs st) := by
  induction xs with
  | nil => intro st; simp [awardedIndices]
  | cons x rest ih =>
    intro st
    rw [awardedIndices, List.pairwise_append]
    refine ⟨?_, ih (surfStep x st), ?_⟩
    · cases hp : st.currentPlatform with
      | none => simp
      | some platform =>
        by_cases hc : st.currentWordIndex < wordIndexAt platform x
        · simp [hc]
        · simp [hc]
    · intro a ha b hb
      cases hp : st.currentPlatform with
      | none => rw [hp] at ha; simp at ha
      | some platform =>
        rw [hp] at ha
        by_cases hc : st.currentWordIndex < wordIndexAt platform x
        · simp only [hc, if_true, List.mem_singleton] at ha
          subst ha
          have h1 : wordIndexAt platform x ≤ (surfStep x st).currentWordIndex := by
            have := checkWordSurfing_award_pushes { st with px := x } platform (by simpa using hp)
              (by simpa using hc)
            simpa [surfStep] using this
          exact lt_of_le_of_lt h1 (awardedIndices_gt rest (surfStep x st) b hb)
        · simp [hc] at ha

/-- Claim C5: while the player remains on one and the same platform, over any
player-X trajectory the `currentWordIndex` never decreases across ticks, and
the per-word awards fire at strictly increasing word indices — so the score
for a given word index is never awarded twice, even when the player re-enters
an earlier word position. -/
theorem wordIndex_monotone_no_double_award (st : PState) (xs : List ℚ) :
    st.currentWordIndex ≤ (surfRun xs st).currentWordIndex ∧
    List.Pairwise (· < ·) (awardedIndices xs st) :=
  ⟨surfRun_index_mono xs st, awardedIndices_pairwise xs st⟩

/-- Claim C7: landing resolution applies only while the player is moving
downward. If `velocity.y < 0` and the selected platform's surface height is
within `playerRadius` (0.5) below the player, the tick snaps `position.y` to
`surface height + radius`, zeroes `velocity.y`, marks grounded and clears
jumping; on a tick with non-negative vertical velocity no landing snap occurs
(position, vertical velocity and jumping flag are untouched, and the grounded
flag is never newly set). -/
theorem checkPlatformCollisions_landing_spec (plats : List (PlatformObj ℚ)) (st : PState)
    (found : PlatformObj ℚ × ℚ) :
    (st.vy < 0 → selectPlatform plats st.px st.py = some found →
      st.py - found.2 ≤ playerRadius →
      (checkPlatformCollisions plats st).py = found.2 + playerRadius ∧
      (checkPlatformCollisions plats st).vy = 0 ∧
      (checkPlatformCollisions plats st).isGrounded = true ∧
      (checkPlatformCollisions plats st).isJumping = false) ∧
    (0 ≤ st.vy →
      (checkPlatformCollisions plats st).py = st.py ∧
      (checkPlatformCollisions plats st).vy = st.vy ∧
      (checkPlatformCollisions plats st).isJumping = st.isJumping ∧
      ((checkPlatformCollisions plats st).isGrounded = true → st.isGrounded = true)) := by
  constructor
  · intro hvy hsel hdist
    unfold checkPlatformCollisions
    rw [hsel]
    simp only [if_pos hvy, if_pos hdist]
    split_ifs <;> simp [onPlatformChange]
  · intro hvy
    have hvy' : ¬st.vy < 0 := not_lt.2 hvy
    unfold checkPlatformCollisions
    simp only [if_neg hvy']
    cases hsel : selectPlatform plats st.px st.py with
    | some found2 => simp
    | none => split_ifs <;> simp_all

/-- Claim C9: word-progress scoring does not require the player to be
grounded. With a current platform set, `checkWordSurfing` awards points and
advances `currentWordIndex` from the player's X alone, even with
`isGrounded = false`; a jump clears `isGrounded` (and leaves
`currentPlatform` untouched); and while airborne the collision step never
clears `currentPlatform` — neither on a non-falling tick nor when no
platform qualifies (the clearing branch requires the grounded flag). -/
theorem wordSurfing_without_grounding (st : PState) (platform : PlatformObj ℚ)
    (input : InputState) (plats : List (PlatformObj ℚ)) :
    (st.currentPlatform = some platform → st.isGrounded = false →
      st.currentWordIndex < wordIndexAt platform st.px →
      st.score + scorePerWord ≤ (checkWordSurfing st).score ∧
      st.currentWordIndex < (checkWordSurfing st).currentWordIndex) ∧
    (input.jump = true → st.isGrounded = true → st.isJumping = false →
      (processInput input st).isGrounded = false ∧
      (processInput input st).isJumping = true ∧
      (processInput input st).currentPlatform = st.currentPlatform) ∧
    (st.isGrounded = false → 0 ≤ st.vy →
      (checkPlatformCollisions plats st).currentPlatform = st.currentPlatform) ∧
    (st.isGrounded = false → selectPlatform plats st.px st.py = none →
      (checkPlatformCollisions plats st).currentPlatform = st.currentPlatform) := by
  refine ⟨?_, ?_, ?_, ?_⟩
  · intro hp _hg hlt
    unfold checkWordSurfing
    rw [hp]
    simp only []
    split_ifs <;> simp_all [scorePerWord, bonusMultiplier] <;> omega
  · intro hj hg hnj
    unfold processInput
    cases hl : input.left
    · cases hr : input.right <;> simp_all
    · cases hr : input.right <;> simp_all
  · intro _hg hvy
    have hvy' : ¬st.vy < 0 := not_lt.2 hvy
    unfold checkPlatformCollisions
    simp only [if_neg hvy']
    cases hsel : selectPlatform plats st.px st.py with
    | some found2 => simp
    | none => split_ifs <;> simp_all
  · intro hg hsel
    unfold checkPlatformCollisions
    rw [hsel]
    split_ifs <;> simp_all

theorem checkPlatformCollisions_landing_witness :
    ((checkPlatformCollisions [platA] stFall).py = 0 + playerRadius ∧
     (checkPlatformCollisions [platA] stFall).vy = 0 ∧
     (checkPlatformCollisions [platA] stFall).isGrounded = true ∧
     (checkPlatformCollisions [platA] stFall).isJumping = false) ∧
    ((checkPlatformCollisions [platA] stRise).py = stRise.py ∧
     (checkPlatformCollisions [platA] stRise).vy = stRise.vy ∧
     (checkPlatformCollisions [platA] stRise).isJumping = stRise.isJumping ∧
     ((checkPlatformCollisions [platA] stRise).isGrounded = true → stRise.isGrounded = true)) :=
  ⟨(checkPlatformCollisions_landing_spec [platA] stFall (platA, 0)).1
      (by norm_num [stFall, initialPState])
      (by norm_num [selectPlatform, selectStep, List.foldl, platA, stFall, initialPState,
        getPlatformYAtX, playerRadius])
      (by norm_num [stFall, initialPState, playerRadius]),
   (checkPlatformCollisions_landing_spec [platA] stRise (platA, 0)).2
      (by norm_num [stRise, initialPState])⟩

theorem wordSurfing_without_grounding_witness :
    (stAir.score + scorePerWord ≤ (checkWordSurfing stAir).score ∧
     stAir.currentWordIndex < (checkWordSurfing stAir).currentWordIndex) ∧
    ((processInput jumpInput stGround).isGrounded = false ∧
     (processInput jumpInput stGround).isJumping = true ∧
     (processInput jumpInput stGround).currentPlatform = stGround.currentPlatform) ∧
    ((checkPlatformCollisions [] stAirUp).currentPlatform = stAirUp.currentPlatform) ∧
    ((checkPlatformCollisions [] stAir).currentPlatform = stAir.currentPlatform) :=
  ⟨(wordSurfing_without_grounding stAir platA jumpInput []).1 rfl rfl
      (by norm_num [wordIndexAt, relativePosAt, platA, stAir, initialPState]),
   (wordSurfing_without_grounding stGround platA jumpInput []).2.1 rfl rfl rfl,
   (wordSurfing_without_grounding stAirUp platA jumpInput []).2.2.1 rfl
      (by norm_num [stAirUp, initialPState]),
   (wordSurfing_without_grounding stAir platA jumpInput []).2.2.2 rfl rfl⟩

theorem checkWordSurfing_platform_const (st : PState) :
    (checkWordSurfing st).currentPlatform = st.currentPlatform := by
  unfold checkWordSurfing
  cases hp : st.currentPlatform with
  | none => exact hp
  | some platform =>
    simp only []
    split_ifs <;> simp [hp]

theorem checkWordSurfing_none (st : PState) (hp : st.currentPlatform = none) :
    checkWordSurfing st = st := by
  unfold checkWordSurfing
  rw [hp]

theorem checkWordSurfing_sentinel (st : PState) (platform : PlatformObj ℚ)
    (hp : st.currentPlatform = some platform)
    (hs : (platform.words.length : ℤ) ≤ st.currentWordIndex) :
    checkWordSurfing st = st := by
  unfold checkWordSurfing
  rw [hp]
  have hmin : wordIndexAt platform st.px ≤ (platform.words.length : ℤ) - 1 :=
    min_le_right _ _
  have h1 : ¬st.currentWordIndex < wordIndexAt platform st.px := by omega
  have h2 : ¬st.currentWordIndex = (platform.words.length : ℤ) - 1 := by omega
  simp only [if_neg h1]
  by_cases hc2 : wordIndexAt platform st.px = (platform.words.length : ℤ) - 1 ∧
      95 / 100 ≤ relativePosAt platform st.px
  · rw [if_pos hc2, if_neg h2]
  · rw [if_neg hc2]

theorem surfRun_sentinel (xs : List ℚ) :
    ∀ (st : PState) (platform : PlatformObj ℚ), st.currentPlatform = some platform →
      (platform.words.length : ℤ) ≤ st.currentWordIndex →
      (surfRun xs st).perfectSurfs = st.perfectSurfs := by
  induction xs with
  | nil => intro st platform _hp _hs; rfl
  | cons x rest ih =>
    intro st platform hp hs
    have hstep : surfStep x st = { st with px := x } :=
      checkWordSurfing_sentinel { st with px := x } platform (by simpa using hp)
        (by simpa using hs)
    show (surfRun rest (surfStep x st)).perfectSurfs = st.perfectSurfs
    rw [hstep]
    exact ih { st with px := x } platform (by simpa using hp) (by simpa using hs)

theorem checkWordSurfing_perfect_step (st : PState) (platform : PlatformObj ℚ)
    (hp : st.currentPlatform = some platform) :
    (checkWordSurfing st).perfectSurfs = st.perfectSurfs ∨
    ((checkWordSurfing st).perfectSurfs = st.perfectSurfs + 1 ∧
      (checkWordSurfing st).currentWordIndex = (platform.words.length : ℤ)) := by
  unfold checkWordSurfing
  rw [hp]
  simp only []
  split_ifs <;> simp

theorem surfRun_perfect_bound (xs : List ℚ) :
    ∀ st : PState, (surfRun xs st).perfectSurfs ≤ st.perfectSurfs + 1 := by
  induction xs with
  | nil => intro st; exact Nat.le_succ _
  | cons x rest ih =>
    intro st
    show (surfRun rest (surfStep x st)).perfectSurfs ≤ st.perfectSurfs + 1
    cases hp : st.currentPlatform with
    | none =>
      have hstep : surfStep x st = { st with px := x } :=
        checkWordSurfing_none { st with px := x } (by simpa using hp)
      rw [hstep]
      exact ih { st with px := x }
    | some platform =>
      rcases checkWordSurfing_perfect_step { st with px := x } platform (by simpa using hp)
        with h | ⟨h1, h2⟩
      · calc (surfRun rest (surfStep x st)).perfectSurfs
            ≤ (surfStep x st).perfectSurfs + 1 := ih _
          _ = st.perfectSurfs + 1 := by rw [surfStep, h]
      · have hplat : (surfStep x st).currentPlatform = some platform := by
          rw [surfStep, checkWordSurfing_platform_const]
          simpa using hp
        have hsent : (platform.words.length : ℤ) ≤ (surfStep x st).currentWordIndex := by
          rw [surfStep, h2]
        rw [surfRun_sentinel rest (surfStep x st) platform hplat hsent, surfStep, h1]

theorem checkWordSurfing_bonus_conditions (st : PState) (platform : PlatformObj ℚ)
    (hp : st.currentPlatform = some platform)
    (hb : (checkWordSurfing st).perfectSurfs ≠ st.perfectSurfs) :
    wordIndexAt platform st.px = (platform.words.length : ℤ) - 1 ∧
    95/100 ≤ relativePosAt platform st.px ∧
    (checkWordSurfing st).currentWordIndex = (platform.words.length : ℤ) := by
  unfold checkWordSurfing at hb ⊢
  rw [hp] at hb ⊢
  simp only [] at hb ⊢
  split_ifs at hb ⊢ <;> simp_all

/-- Claim C6 counterexample: the perfect-surf bonus is NOT at-most-once per
platform over a run of the game. On this concrete three-tick run the player
lands on the right end of `platA` (bonus fires, `perfectSurfs = 1`), lands
on `platB` (a platform change, which resets `currentWordIndex` to 0 and so
re-arms the bonus; no award there), then lands back on the right end of
`platA`, where the bonus fires a second time (`perfectSurfs = 2`): both
awards occur on ticks whose current platform is `platA` (id 0). -/
theorem perfectSurf_twice_on_same_platform :
    tick1.perfectSurfs = 1 ∧ tick1.currentPlatform.map (fun p => p.id) = some 0 ∧
    tick2.perfectSurfs = 1 ∧ tick2.currentPlatform.map (fun p => p.id) = some 1 ∧
    tick3.perfectSurfs = 2 ∧ tick3.currentPlatform.map (fun p => p.id) = some 0 := by
  norm_num [tick1, tick2, tick3, demoLevel, collideAndSurf, checkPlatformCollisions,
    selectPlatform, List.foldl, selectStep, getPlatformYAtX, platA, platB, playerRadius,
    onPlatformChange, checkWordSurfing, wordIndexAt, relativePosAt, scorePerWord,
    bonusMultiplier, initialPState]

/-- Claim C6 (amended): for each platform the perfect-surf bonus is awarded
at most once per continuous stay on that platform (no intervening platform
change; a platform change resets the word index and re-arms the bonus), it
fires only on a tick where the word index equals `words.length - 1` and the
relative position is at least 0.95, and the award sets the word index to the
sentinel `words.length`, so the bonus cannot fire again during that stay. -/
theorem perfectSurf_once_per_stay (st : PState) (platform : PlatformObj ℚ) (x : ℚ)
    (xs : List ℚ) (hp : st.currentPlatform = some platform)
    (hb : (checkWordSurfing { st with px := x }).perfectSurfs ≠ st.perfectSurfs) :
    (surfRun xs st).perfectSurfs ≤ st.perfectSurfs + 1 ∧
    wordIndexAt platform x = (platform.words.length : ℤ) - 1 ∧
    95/100 ≤ relativePosAt platform x ∧
    (checkWordSurfing { st with px := x }).currentWordIndex = (platform.words.length : ℤ) := by
  have h := checkWordSurfing_bonus_conditions { st with px := x } platform (by simpa using hp)
    (by simpa using hb)
  exact ⟨surfRun_perfect_bound xs st, h.1, h.2.1, h.2.2⟩

theorem perfectSurf_once_per_stay_witness :
    (surfRun [59/10, 59/10] stOnA).perfectSurfs ≤ stOnA.perfectSurfs + 1 ∧
    wordIndexAt platA (59/10) = (platA.words.length : ℤ) - 1 ∧
    95/100 ≤ relativePosAt platA (59/10) ∧
    (checkWordSurfing { stOnA with px := 59/10 }).currentWordIndex = (platA.words.length : ℤ) :=
  perfectSurf_once_per_stay stOnA platA (59/10) [59/10, 59/10] rfl
    (by norm_num [checkWordSurfing, wordIndexAt, relativePosAt, platA, stOnA, initialPState,
      scorePerWord, bonusMultiplier])

/-- Claim C10: the geometry cache keys platforms by length, width, and
curviness rounded to one decimal place. For two `createCurvedPlatform`
calls with equal length and width whose curviness values round to the same
one-decimal value, the second call returns (a clone of) the mesh built with
the first call's curviness — its build parameters and its bound height
function come from the first call's curviness, not its own. -/
theorem cache_hit_uses_first_curviness (length width c1 c2 : ℚ)
    (h : toFixed1 c1 = toFixed1 c2) :
    (createCurvedPlatform
        (createCurvedPlatform [] length width c1).2 length width c2).1
      = { length := length, width := width, curviness := c1 } ∧
    meshCurveFunction
        (createCurvedPlatform
          (createCurvedPlatform [] length width c1).2 length width c2).1
      = fun x => generateCurve (x + (length : ℝ) / 2) (length : ℝ) (c1 : ℝ) := by
  have hkey : cacheKeyOf length width c2 = cacheKeyOf length width c1 := by
    simp [cacheKeyOf, h]
  have hm : (createCurvedPlatform
      (createCurvedPlatform [] length width c1).2 length width c2).1
      = { length := length, width := width, curviness := c1 } := by
    show (createCurvedPlatform
      [(cacheKeyOf length width c1, { length := length, width := width, curviness := c1 })]
      length width c2).1 = { length := length, width := width, curviness := c1 }
    unfold createCurvedPlatform
    simp [List.find?, hkey]
  exact ⟨hm, by rw [hm]; rfl⟩

theorem cache_hit_witness :
    toFixed1 (124/25) = toFixed1 (126/25) ∧
    (createCurvedPlatform (createCurvedPlatform [] 18 2 (124/25)).2 18 2 (126/25)).1
      = { length := 18, width := 2, curviness := 124/25 } :=
  ⟨by norm_num [toFixed1, round_eq],
   (cache_hit_uses_first_curviness 18 2 (124/25) (126/25)
      (by norm_num [toFixed1, round_eq])).1⟩

end WordSurf
